import Mathlib

/-!
Verification of the pycubic client library.

The library (`pycubic/auth.py`, `user.py`, `cubic.py`, `cubic_access.py`) is a
thin asynchronous wrapper over a vendor REST API.  We embed it shallowly:

* The network is an oracle `Net`: a function from the index of the call (how
  many HTTP calls the session has issued so far) and the outgoing request to
  the HTTP response.  Every issued request is appended to a trace, so theorems
  can speak about which calls were made and in which order.
* `AuthClient` state (`self._access_token`, `self._refresh_token`,
  `self._access_token_expire`, `self._refresh_token_expire`, `self._base_url`)
  becomes the structure `AuthState`; Python `None` becomes `Option`.
* Python truthiness tests (`if not self._refresh_token`, ...) are modelled
  exactly: `None`, the empty string and the number `0` are falsy.
* `time.time()` is passed in explicitly as `now` (each operation reads the
  clock at most once).
* Raised exceptions become `Except Err`; `aiohttp.ClientResponseError`
  becomes `Err.clientResponseError status message`, `ValueError` becomes
  `Err.valueError`, a Python `KeyError` becomes `Err.keyError`.
* Parsed JSON bodies are modelled two ways, matching how the code consumes
  them: login/refresh bodies through the typed record `TokenData`
  (`data.get(field)` is a record projection of type `Option _`), and generic
  `request` bodies as a string-valued dict (`Dict`), which is all the code
  ever reads from them (`user['userId']`).
-/

namespace Pycubic

/-- Python `str()` applied to an optional string, as used by f-string
interpolation: `None` renders as the text `None`. -/
def pyStr : Option String → String
  | none => "None"
  | some s => s

/-- Python truthiness of an optional string: `None` and `""` are falsy. -/
def truthyStr : Option String → Bool
  | none => false
  | some s => s ≠ ""

/-- Python truthiness of an optional number: `None` and `0` are falsy. -/
def truthyInt : Option Int → Bool
  | none => false
  | some n => n ≠ 0

/-- A Python dict with string keys and string values, as an association list
with unique-key insertion semantics. -/
abbrev Dict := List (String × String)

/-- `d.get(k)` / `d[k]` lookup: first entry with the key. -/
def dictGet (d : Dict) (k : String) : Option String :=
  match d with
  | [] => none
  | (k2, v) :: rest => if k2 = k then some v else dictGet rest k

/-- `d[k] = v`: replace the value of an existing key in place, else append. -/
def dictInsert (d : Dict) (k v : String) : Dict :=
  match d with
  | [] => [(k, v)]
  | (k2, v2) :: rest =>
    if k2 = k then (k2, v) :: rest else (k2, v2) :: dictInsert rest k v

/-- The JSON body shape of login/refresh responses:
`{accessToken, refreshToken, accessTokenExpire, refreshTokenExpire}`.
A missing field is `none` (Python `dict.get` returns `None`). -/
structure TokenData where
  accessToken : Option String
  refreshToken : Option String
  accessTokenExpire : Option Int
  refreshTokenExpire : Option Int
deriving DecidableEq

/-- An outgoing HTTP request: method, absolute URL, headers and JSON payload. -/
structure HttpRequest where
  method : String
  url : String
  headers : Dict
  jsonBody : Dict
deriving DecidableEq

/-- An HTTP response: status, the parsed JSON body (viewed both as the
login/refresh token shape `tok` and as a generic dict `body`), and the raw
body text used in error messages. -/
structure HttpResponse where
  status : Nat
  tok : TokenData
  body : Dict
  text : String
deriving DecidableEq

/-- The network oracle: given how many calls were issued before and the
outgoing request, produce the response. -/
structure Net where
  respond : Nat → HttpRequest → HttpResponse

/-- The exceptions the library raises. -/
inductive Err where
  | clientResponseError (status : Nat) (message : String)
  | valueError (message : String)
  | keyError (key : String)
deriving DecidableEq

/-- The mutable fields of `AuthClient` (`auth.py` `__init__`): base URL and
the four token fields, all starting as `None`. -/
structure AuthState where
  base_url : String
  access_token : Option String
  refresh_token : Option String
  access_token_expire : Option Int
  refresh_token_expire : Option Int
deriving DecidableEq

/-- The world a session lives in: the auth client state plus the trace of all
HTTP calls issued so far through its `aiohttp` session. -/
structure Sys where
  auth : AuthState
  calls : List HttpRequest
deriving DecidableEq

/-- Issue one HTTP call: ask the oracle and append the request to the trace. -/
def netCall (net : Net) (s : Sys) (r : HttpRequest) : HttpResponse × Sys :=
  (net.respond s.calls.length r, { s with calls := s.calls ++ [r] })

/-- Store the four token fields from a login/refresh response body
(`self._access_token = data.get('accessToken')` and the three lines after). -/
def store_token_data (st : AuthState) (data : TokenData) : AuthState :=
  { st with
    access_token := data.accessToken,
    refresh_token := data.refreshToken,
    access_token_expire := data.accessTokenExpire,
    refresh_token_expire := data.refreshTokenExpire }

/-- The request `login` sends: POST `{base_url}/auth/auth/login` with payload
`{'email': email, 'password': password}` and no extra headers. -/
def login_request (st : AuthState) (email password : String) : HttpRequest :=
  { method := "POST",
    url := st.base_url ++ "/auth/auth/login",
    headers := [],
    jsonBody := [("email", email), ("password", password)] }

/-- `AuthClient.login` (auth.py): POST credentials; on HTTP 200 store the four
token fields and return the parsed body; otherwise raise
`aiohttp.ClientResponseError` with the status and `'Login failed: ' + text`. -/
def login (net : Net) (s : Sys) (email password : String) :
    Except Err TokenData × Sys :=
  let rs := netCall net s (login_request s.auth email password)
  let response := rs.1
  if response.status = 200 then
    (Except.ok response.tok, { rs.2 with auth := store_token_data rs.2.auth response.tok })
  else
    (Except.error (Err.clientResponseError response.status
        ("Login failed: " ++ response.text)), rs.2)

/-- `AuthClient.is_access_token_expired` (auth.py): `True` when
`self._access_token_expire` is falsy (`None` or `0`), else
`time.time() + 60 > self._access_token_expire`. -/
def is_access_token_expired (st : AuthState) (now : Int) : Bool :=
  match st.access_token_expire with
  | none => true
  | some e => if e = 0 then true else decide (now + 60 > e)

/-- The request `is_current_token_valid` sends: GET
`{base_url}/auth/validate/token` with a bearer header from the stored token. -/
def validate_request (st : AuthState) : HttpRequest :=
  { method := "GET",
    url := st.base_url ++ "/auth/validate/token",
    headers := [("Authorization", "Bearer " ++ pyStr st.access_token)],
    jsonBody := [] }

/-- `AuthClient.is_current_token_valid` (auth.py): `False` without any network
call when the stored access token is falsy; otherwise probe the validation
endpoint and report whether the status is 200.  Never raises. -/
def is_current_token_valid (net : Net) (s : Sys) : Bool × Sys :=
  if truthyStr s.auth.access_token = false then (false, s)
  else
    let rs := netCall net s (validate_request s.auth)
    (rs.1.status == 200, rs.2)

/-- The request `refresh_token` sends: POST `{base_url}/auth/auth/refresh`
with a bearer header from the (old) access token and payload
`{'refreshToken': self._refresh_token}`. -/
def refresh_request (st : AuthState) : HttpRequest :=
  { method := "POST",
    url := st.base_url ++ "/auth/auth/refresh",
    headers := [("Authorization", "Bearer " ++ pyStr st.access_token)],
    jsonBody := [("refreshToken", pyStr st.refresh_token)] }

/-- `AuthClient.refresh_token` (auth.py): raise
`ValueError('No refresh token available. Please login first.')` when the
stored refresh token is falsy; otherwise POST the refresh request; on HTTP 200
store the four token fields, else raise `aiohttp.ClientResponseError` with the
status and `'Token refresh failed: ' + text`. -/
def refresh_token (net : Net) (s : Sys) : Except Err Unit × Sys :=
  if truthyStr s.auth.refresh_token = false then
    (Except.error (Err.valueError "No refresh token available. Please login first."), s)
  else
    let rs := netCall net s (refresh_request s.auth)
    let response := rs.1
    if response.status = 200 then
      (Except.ok (), { rs.2 with auth := store_token_data rs.2.auth response.tok })
    else
      (Except.error (Err.clientResponseError response.status
          ("Token refresh failed: " ++ response.text)), rs.2)

/-- `AuthClient._ensure_valid_access_token` (auth.py): refresh when the token
is locally expired; else, when `check_server`, probe the server and refresh on
a negative answer. -/
def ensure_valid_access_token (net : Net) (now : Int) (check_server : Bool)
    (s : Sys) : Except Err Unit × Sys :=
  if is_access_token_expired s.auth now then
    refresh_token net s
  else if check_server then
    let vs := is_current_token_valid net s
    if vs.1 then (Except.ok (), vs.2) else refresh_token net vs.2
  else
    (Except.ok (), s)

/-- The headers of an authenticated request: a copy of the caller-supplied
headers with `Authorization` set to `Bearer` plus the stored access token
(`headers = dict(kwargs.get('headers', \x7b\x7d)); headers['Authorization'] = ...`). -/
def auth_headers (st : AuthState) (callerHeaders : Dict) : Dict :=
  dictInsert callerHeaders "Authorization" ("Bearer " ++ pyStr st.access_token)

/-- Python `endpoint.lstrip('/')`: drop all leading slash characters. -/
def pyLstripSlash (s : String) : String :=
  ⟨s.data.dropWhile (fun c => c = '/')⟩

/-- The main request `request` issues after ensuring token validity:
`{base_url}/{endpoint.lstrip('/')}` with the merged headers. -/
def main_request (st : AuthState) (method endpoint : String)
    (callerHeaders : Dict) : HttpRequest :=
  { method := method,
    url := st.base_url ++ "/" ++ pyLstripSlash endpoint,
    headers := auth_headers st callerHeaders,
    jsonBody := [] }

/-- `AuthClient.request` (auth.py): ensure a valid access token (refreshing if
needed, with `check_server` left at its default `False`), inject the bearer
header into the caller-supplied headers, issue the call, return the parsed
JSON body on HTTP 200, else raise `aiohttp.ClientResponseError` with the
status and `'Failed to execute request {status} - {text}'`. -/
def request (net : Net) (now : Int) (s : Sys) (method endpoint : String)
    (callerHeaders : Dict) : Except Err Dict × Sys :=
  match ensure_valid_access_token net now false s with
  | (Except.error e, s1) => (Except.error e, s1)
  | (Except.ok _, s1) =>
    let rs := netCall net s1 (main_request s1.auth method endpoint callerHeaders)
    let response := rs.1
    if response.status = 200 then
      (Except.ok response.body, rs.2)
    else
      (Except.error (Err.clientResponseError response.status
          ("Failed to execute request " ++ toString response.status ++ " - "
            ++ response.text)), rs.2)

/-- `AuthClient.get_user_id` (auth.py): GET `/auth/auth/user` through
`request` and return `user['userId']`; a missing key is a `KeyError`. -/
def get_user_id (net : Net) (now : Int) (s : Sys) : Except Err String × Sys :=
  match request net now s "GET" "/auth/auth/user" [] with
  | (Except.error e, s1) => (Except.error e, s1)
  | (Except.ok user, s1) =>
    match dictGet user "userId" with
    | none => (Except.error (Err.keyError "userId"), s1)
    | some v => (Except.ok v, s1)

/-- The instance state of `UserClient` (user.py): the lazily cached user id,
`self._user_id`, initially `None`. -/
structure UserClient where
  user_id : Option String
deriving DecidableEq

/-- The endpoint `UserClient._get_user_data` builds:
`service/users/user/{self._user_id}/{data_type}/{1 if bypass else 0}`. -/
def user_data_endpoint (user_id : Option String) (data_type : String)
    (bypass : Bool) : String :=
  "service/users/user/" ++ pyStr user_id ++ "/" ++ data_type ++ "/"
    ++ (if bypass then "1" else "0")

/-- `UserClient._get_user_data` (user.py): when `self._user_id` is falsy,
fetch it via `AuthClient.get_user_id` and cache it; then GET the user-data
endpoint through the session.  Returns the response body together with the
updated session and client states. -/
def get_user_data (net : Net) (now : Int) (s : Sys) (u : UserClient)
    (data_type : String) (bypass : Bool) :
    Except Err Dict × Sys × UserClient :=
  if truthyStr u.user_id = false then
    match get_user_id net now s with
    | (Except.error e, s1) => (Except.error e, s1, u)
    | (Except.ok uid, s1) =>
      let u1 : UserClient := { user_id := some uid }
      let rr := request net now s1 "GET" (user_data_endpoint u1.user_id data_type bypass) []
      (rr.1, rr.2, u1)
  else
    let rr := request net now s "GET" (user_data_endpoint u.user_id data_type bypass) []
    (rr.1, rr.2, u)

/-- `UserClient.get_structure` (user.py). -/
def get_structure (net : Net) (now : Int) (s : Sys) (u : UserClient)
    (bypass : Bool) : Except Err Dict × Sys × UserClient :=
  get_user_data net now s u "structure" bypass

/-- `UserClient.get_information` (user.py). -/
def get_information (net : Net) (now : Int) (s : Sys) (u : UserClient)
    (bypass : Bool) : Except Err Dict × Sys × UserClient :=
  get_user_data net now s u "information" bypass

/-- The instance state of `CubicClient` (cubic.py): only the serial number
(plus the shared session, which we pass explicitly). -/
structure CubicClient where
  serial_number : String
deriving DecidableEq

/-- The endpoint `CubicClient.get_measurement` builds:
`service/cubic/secure/{serial}/measurement/{1 if bypass else 0}`. -/
def measurement_endpoint (serial : String) (bypass : Bool) : String :=
  "service/cubic/secure/" ++ serial ++ "/measurement/"
    ++ (if bypass then "1" else "0")

/-- The endpoint `CubicClient.get_configuration` builds. -/
def configuration_endpoint (serial : String) (bypass : Bool) : String :=
  "service/cubic/secure/" ++ serial ++ "/configuration/"
    ++ (if bypass then "1" else "0")

/-- `CubicClient.get_measurement` (cubic.py): GET the measurement endpoint
through the session. -/
def get_measurement (net : Net) (now : Int) (s : Sys) (c : CubicClient)
    (bypass : Bool) : Except Err Dict × Sys :=
  request net now s "GET" (measurement_endpoint c.serial_number bypass) []

/-- `CubicClient.get_configuration` (cubic.py): GET the configuration
endpoint through the session. -/
def get_configuration (net : Net) (now : Int) (s : Sys) (c : CubicClient)
    (bypass : Bool) : Except Err Dict × Sys :=
  request net now s "GET" (configuration_endpoint c.serial_number bypass) []

/-- The instance state of `CubicAccessClient` (cubic_access.py): only the
serial number (plus the shared session, passed explicitly). -/
structure CubicAccessClient where
  serial_number : String
deriving DecidableEq

/-- The endpoint `CubicAccessClient.set_valve_state` builds:
`control/cubic/secure/{serial}/valve/{'open' if state else 'close'}`. -/
def valve_state_endpoint (serial : String) (state : Bool) : String :=
  "control/cubic/secure/" ++ serial ++ "/valve/"
    ++ (if state then "open" else "close")

/-- `CubicAccessClient.get_valve` (cubic_access.py): GET the valve state. -/
def get_valve (net : Net) (now : Int) (s : Sys) (c : CubicAccessClient) :
    Except Err Dict × Sys :=
  request net now s "GET" ("control/cubic/secure/" ++ c.serial_number ++ "/valve") []

/-- `CubicAccessClient.set_valve_state` (cubic_access.py): POST to the
open/close valve endpoint through the session. -/
def set_valve_state (net : Net) (now : Int) (s : Sys) (c : CubicAccessClient)
    (state : Bool) : Except Err Dict × Sys :=
  request net now s "POST" (valve_state_endpoint c.serial_number state) []

/-- `CubicAccessClient.open_valve` (cubic_access.py): delegate to
`set_valve_state(True)`. -/
def open_valve (net : Net) (now : Int) (s : Sys) (c : CubicAccessClient) :
    Except Err Dict × Sys :=
  set_valve_state net now s c true

/-- `CubicAccessClient.close_valve` (cubic_access.py): delegate to
`set_valve_state(False)`. -/
def close_valve (net : Net) (now : Int) (s : Sys) (c : CubicAccessClient) :
    Except Err Dict × Sys :=
  set_valve_state net now s c false

/-- Is this request the token-refresh call of the session with base URL
`base`? -/
def isRefreshCallTo (base : String) (r : HttpRequest) : Bool :=
  r.url == base ++ "/auth/auth/refresh"

/-- How many token-refresh calls a trace contains. -/
def countRefreshCalls (base : String) (l : List HttpRequest) : Nat :=
  (l.filter (isRefreshCallTo base)).length

/-- Is this request the dedicated user-id lookup (GET `auth/auth/user`) of the
session with base URL `base`? -/
def isUserLookupCall (base : String) (r : HttpRequest) : Bool :=
  r.method == "GET" && r.url == base ++ "/auth/auth/user"

/-- How many dedicated user-id lookups a trace contains. -/
def countUserLookupCalls (base : String) (l : List HttpRequest) : Nat :=
  (l.filter (isUserLookupCall base)).length

/-! Concrete fixtures used to witness the theorems below on closed inputs. -/

/-- A session state holding a full, fresh token pair. -/
def sysValid : Sys :=
  { auth :=
    { base_url := "https://x",
      access_token := some "tokA",
      refresh_token := some "tokR",
      access_token_expire := some 1000000,
      refresh_token_expire := some 2000000 },
    calls := [] }

/-- A session state whose access token is already expired at time 100 but
which still holds a usable refresh token. -/
def sysExpired : Sys :=
  { auth :=
    { base_url := "https://x",
      access_token := some "oldA",
      refresh_token := some "tokR",
      access_token_expire := some 30,
      refresh_token_expire := some 2000000 },
    calls := [] }

/-- A freshly constructed session state: no tokens stored. -/
def sysEmpty : Sys :=
  { auth :=
    { base_url := "https://x",
      access_token := none,
      refresh_token := none,
      access_token_expire := none,
      refresh_token_expire := none },
    calls := [] }

/-- An oracle that answers every call with HTTP 401 and body text `nope`. -/
def netAll401 : Net :=
  { respond := fun _ _ =>
      { status := 401, tok := ⟨none, none, none, none⟩, body := [], text := "nope" } }

/-- An oracle that answers every call with HTTP 200, a fresh token pair and a
user-id body. -/
def netHappy : Net :=
  { respond := fun _ _ =>
      { status := 200,
        tok := ⟨some "newA", some "newR", some 5000, some 9000⟩,
        body := [("userId", "u77")],
        text := "ok" } }

/-- An oracle that answers the dedicated user-id lookup with HTTP 200 and the
empty-string user id, and every other call with a plain HTTP 200. -/
def netUserEmpty : Net :=
  { respond := fun _ r =>
      if r.url = "https://x/auth/auth/user" then
        { status := 200, tok := ⟨none, none, none, none⟩,
          body := [("userId", "")], text := "ok" }
      else
        { status := 200, tok := ⟨none, none, none, none⟩, body := [], text := "ok" } }

/-! Helper lemmas shared by the claim theorems. -/

theorem dictGet_dictInsert_self (d : Dict) (k v : String) :
    dictGet (dictInsert d k v) k = some v := by
  induction d with
  | nil => simp [dictGet, dictInsert]
  | cons hd tl ih =>
    obtain ⟨k2, v2⟩ := hd
    by_cases h : k2 = k
    · simp [dictGet, dictInsert, h]
    · simp [dictGet, dictInsert, h, ih]

theorem dictGet_dictInsert_ne (d : Dict) (k k2 v : String) (h : k2 ≠ k) :
    dictGet (dictInsert d k v) k2 = dictGet d k2 := by
  have hk : ¬(k = k2) := fun hh => h hh.symm
  induction d with
  | nil => simp [dictGet, dictInsert, hk]
  | cons hd tl ih =>
    obtain ⟨k3, v3⟩ := hd
    by_cases h3 : k3 = k
    · simp [dictGet, dictInsert, h3, hk]
    · simp [dictGet, dictInsert, h3, ih]

theorem strData_append (s t : String) : (s ++ t).data = s.data ++ t.data := by
  cases s; cases t; rfl

theorem data_append_cons (a b : String) (c : Char) (cs : List Char)
    (ha : a.data = c :: cs) : (a ++ b).data = c :: (cs ++ b.data) := by
  rw [strData_append, ha]; rfl

theorem pyLstripSlash_of_head_ne (s : String) (c : Char) (cs : List Char)
    (hs : s.data = c :: cs) (hc : c ≠ '/') : pyLstripSlash s = s := by
  cases s with
  | mk l =>
    simp only [pyLstripSlash]
    simp at hs
    rw [hs]
    simp [List.dropWhile, hc]

theorem append_right_ne (a b c : String) (h : b ≠ c) : a ++ b ≠ a ++ c := by
  intro he
  apply h
  have hd : (a ++ b).data = (a ++ c).data := by rw [he]
  rw [strData_append, strData_append] at hd
  have hbc := List.append_cancel_left hd
  cases b
  cases c
  exact congrArg String.mk hbc

theorem ensure_of_fresh (net : Net) (now : Int) (s : Sys)
    (hval : is_access_token_expired s.auth now = false) :
    ensure_valid_access_token net now false s = (Except.ok (), s) := by
  simp [ensure_valid_access_token, hval]

theorem ensure_of_expired (net : Net) (now : Int) (s : Sys)
    (hexp : is_access_token_expired s.auth now = true) :
    ensure_valid_access_token net now false s = refresh_token net s := by
  simp [ensure_valid_access_token, hexp]

theorem refresh_token_of_ok (net : Net) (s : Sys) (rt : String)
    (hrt : s.auth.refresh_token = some rt) (hrtne : rt ≠ "")
    (hstatus : (net.respond s.calls.length (refresh_request s.auth)).status = 200) :
    refresh_token net s =
      (Except.ok (),
       { auth := store_token_data s.auth
           (net.respond s.calls.length (refresh_request s.auth)).tok,
         calls := s.calls ++ [refresh_request s.auth] }) := by
  simp [refresh_token, truthyStr, hrt, hrtne, netCall, hstatus]

theorem request_of_valid (net : Net) (now : Int) (s : Sys)
    (method endpoint : String) (callerHeaders : Dict)
    (hval : is_access_token_expired s.auth now = false) :
    request net now s method endpoint callerHeaders =
      (let resp := net.respond s.calls.length
          (main_request s.auth method endpoint callerHeaders)
       if resp.status = 200 then Except.ok resp.body
       else Except.error (Err.clientResponseError resp.status
         ("Failed to execute request " ++ toString resp.status ++ " - " ++ resp.text)),
       { s with calls := s.calls ++
           [main_request s.auth method endpoint callerHeaders] }) := by
  rw [request, ensure_of_fresh net now s hval]
  simp only [netCall]
  split <;> rfl

/-- C2: `is_access_token_expired` is a pure function of the stored expiry and
the current time with a 60-second margin: for a nonnegative current time
(POSIX `time.time()`), every stored expiry strictly below `now + 60` yields
`true`, every stored expiry strictly above `now + 60` yields `false`, and with
no stored expiry it yields `true`. -/
theorem is_access_token_expired_characterization (st : AuthState) (now : Int)
    (hnow : 0 ≤ now) :
    (st.access_token_expire = none → is_access_token_expired st now = true) ∧
    (∀ e : Int, st.access_token_expire = some e →
      ((e < now + 60 → is_access_token_expired st now = true) ∧
       (now + 60 < e → is_access_token_expired st now = false))) := by
  constructor
  · intro h
    simp [is_access_token_expired, h]
  · intro e he
    constructor
    · intro hlt
      by_cases h0 : e = 0
      · simp [is_access_token_expired, he, h0]
      · simp only [is_access_token_expired, he]
        rw [if_neg h0]
        simp
        omega
    · intro hgt
      simp only [is_access_token_expired, he]
      rw [if_neg (by omega)]
      simp
      omega

/-- Witness for C2 at concrete inputs: at time 100, a token expiring at 50 is
expired and one expiring at 1000 is not. -/
theorem is_access_token_expired_characterization_witness :
    is_access_token_expired ⟨"https://x", none, none, some 50, none⟩ 100 = true ∧
    is_access_token_expired ⟨"https://x", none, none, some 1000, none⟩ 100 = false :=
  ⟨((is_access_token_expired_characterization
        ⟨"https://x", none, none, some 50, none⟩ 100 (by decide)).2 50 rfl).1 (by decide),
   ((is_access_token_expired_characterization
        ⟨"https://x", none, none, some 1000, none⟩ 100 (by decide)).2 1000 rfl).2 (by decide)⟩

/-- C3: with no stored refresh token, `refresh_token` raises the
must-login-first error (`ValueError` in the source, the spec's StateError)
and returns the state completely unchanged: no network call is issued and the
token pair is untouched. -/
theorem refresh_token_before_login (net : Net) (s : Sys)
    (h : s.auth.refresh_token = none) :
    refresh_token net s =
      (Except.error (Err.valueError "No refresh token available. Please login first."), s) := by
  simp [refresh_token, truthyStr, h]

/-- Witness for C3: a fresh session refuses to refresh. -/
theorem refresh_token_before_login_witness :
    refresh_token netAll401 sysEmpty =
      (Except.error (Err.valueError "No refresh token available. Please login first."),
       sysEmpty) :=
  refresh_token_before_login netAll401 sysEmpty rfl

/-- C4: `login` with an HTTP 200 response stores all four token fields from
the response body and returns the parsed body; with any non-200 status it
raises an error carrying the original status code and the response body
text, and only records the issued call. -/
theorem login_characterization (net : Net) (s : Sys) (email password : String)
    (response : HttpResponse)
    (hresp : response = net.respond s.calls.length (login_request s.auth email password)) :
    (response.status = 200 →
      login net s email password =
        (Except.ok response.tok,
         { auth := store_token_data s.auth response.tok,
           calls := s.calls ++ [login_request s.auth email password] }) ∧
      (store_token_data s.auth response.tok).access_token = response.tok.accessToken ∧
      (store_token_data s.auth response.tok).refresh_token = response.tok.refreshToken ∧
      (store_token_data s.auth response.tok).access_token_expire = response.tok.accessTokenExpire ∧
      (store_token_data s.auth response.tok).refresh_token_expire = response.tok.refreshTokenExpire) ∧
    (response.status ≠ 200 →
      login net s email password =
        (Except.error (Err.clientResponseError response.status
            ("Login failed: " ++ response.text)),
         { auth := s.auth, calls := s.calls ++ [login_request s.auth email password] })) := by
  subst hresp
  constructor
  · intro h200
    refine ⟨?_, rfl, rfl, rfl, rfl⟩
    simp [login, netCall, h200]
  · intro hne
    simp [login, netCall, hne]

/-- Witness for C4, both branches at concrete inputs: a 200 response
populates the token pair, a 401 response raises with status and body text. -/
theorem login_characterization_witness :
    (login netHappy sysEmpty "a@b.c" "pw" =
      (Except.ok ⟨some "newA", some "newR", some 5000, some 9000⟩,
       { auth := ⟨"https://x", some "newA", some "newR", some 5000, some 9000⟩,
         calls := [login_request sysEmpty.auth "a@b.c" "pw"] })) ∧
    (login netAll401 sysEmpty "a@b.c" "pw" =
      (Except.error (Err.clientResponseError 401 ("Login failed: " ++ "nope")),
       { auth := sysEmpty.auth,
         calls := [login_request sysEmpty.auth "a@b.c" "pw"] })) :=
  ⟨((login_characterization netHappy sysEmpty "a@b.c" "pw" _ rfl).1 rfl).1,
   (login_characterization netAll401 sysEmpty "a@b.c" "pw" _ rfl).2 (by decide)⟩

/-- C5: failed mutating operations are atomic: whenever `login` or
`refresh_token` returns an error, the whole `AuthClient` state (all four
stored token fields and the base URL) is exactly as before the call. -/
theorem auth_failure_preserves_tokens (net : Net) (s : Sys) (email password : String) :
    (∀ e s1, login net s email password = (Except.error e, s1) → s1.auth = s.auth) ∧
    (∀ e s1, refresh_token net s = (Except.error e, s1) → s1.auth = s.auth) := by
  constructor
  · intro e s1 h
    by_cases hs : (net.respond s.calls.length (login_request s.auth email password)).status = 200
    · simp [login, netCall, hs] at h
    · simp [login, netCall, hs] at h
      rw [← h.2]
  · intro e s1 h
    by_cases hr : truthyStr s.auth.refresh_token = false
    · simp [refresh_token, hr] at h
      rw [← h.2]
    · by_cases hs : (net.respond s.calls.length (refresh_request s.auth)).status = 200
      · simp [refresh_token, hr, netCall, hs] at h
      · simp [refresh_token, hr, netCall, hs] at h
        rw [← h.2]

/-- Witness for C5: a 401 on login and a 401 on refresh both leave the stored
token pair untouched. -/
theorem auth_failure_preserves_tokens_witness :
    ((login netAll401 sysValid "a@b.c" "pw").2).auth = sysValid.auth ∧
    ((refresh_token netAll401 sysValid).2).auth = sysValid.auth :=
  ⟨(auth_failure_preserves_tokens netAll401 sysValid "a@b.c" "pw").1
      (Err.clientResponseError 401 ("Login failed: " ++ "nope"))
      (login netAll401 sysValid "a@b.c" "pw").2 rfl,
   (auth_failure_preserves_tokens netAll401 sysValid "a@b.c" "pw").2
      (Err.clientResponseError 401 ("Token refresh failed: " ++ "nope"))
      (refresh_token netAll401 sysValid).2 rfl⟩

theorem append_append_lit (x u v w : String) (huv : u ++ v = w) :
    (x ++ u) ++ v = x ++ w := by
  rw [String.append_assoc, huv]

theorem pyLstripSlash_valve_state_endpoint (serial : String) (state : Bool) :
    pyLstripSlash (valve_state_endpoint serial state) = valve_state_endpoint serial state := by
  have h0 : ("control/cubic/secure/" : String).data
      = 'c' :: ("ontrol/cubic/secure/" : String).data := rfl
  have h1 := data_append_cons "control/cubic/secure/" serial _ _ h0
  have h2 := data_append_cons _ "/valve/" _ _ h1
  have h3 := data_append_cons _ (if state then "open" else "close") _ _ h2
  exact pyLstripSlash_of_head_ne _ 'c' _ h3 (by decide)

theorem pyLstripSlash_measurement_endpoint (serial : String) (bypass : Bool) :
    pyLstripSlash (measurement_endpoint serial bypass) = measurement_endpoint serial bypass := by
  have h0 : ("service/cubic/secure/" : String).data
      = 's' :: ("ervice/cubic/secure/" : String).data := rfl
  have h1 := data_append_cons "service/cubic/secure/" serial _ _ h0
  have h2 := data_append_cons _ "/measurement/" _ _ h1
  have h3 := data_append_cons _ (if bypass then "1" else "0") _ _ h2
  exact pyLstripSlash_of_head_ne _ 's' _ h3 (by decide)

theorem pyLstripSlash_configuration_endpoint (serial : String) (bypass : Bool) :
    pyLstripSlash (configuration_endpoint serial bypass) = configuration_endpoint serial bypass := by
  have h0 : ("service/cubic/secure/" : String).data
      = 's' :: ("ervice/cubic/secure/" : String).data := rfl
  have h1 := data_append_cons "service/cubic/secure/" serial _ _ h0
  have h2 := data_append_cons _ "/configuration/" _ _ h1
  have h3 := data_append_cons _ (if bypass then "1" else "0") _ _ h2
  exact pyLstripSlash_of_head_ne _ 's' _ h3 (by decide)

theorem pyLstripSlash_user_data_endpoint (uid : Option String) (dt : String) (bypass : Bool) :
    pyLstripSlash (user_data_endpoint uid dt bypass) = user_data_endpoint uid dt bypass := by
  have h0 : ("service/users/user/" : String).data
      = 's' :: ("ervice/users/user/" : String).data := rfl
  have h1 := data_append_cons "service/users/user/" (pyStr uid) _ _ h0
  have h2 := data_append_cons _ "/" _ _ h1
  have h3 := data_append_cons _ dt _ _ h2
  have h4 := data_append_cons _ "/" _ _ h3
  have h5 := data_append_cons _ (if bypass then "1" else "0") _ _ h4
  exact pyLstripSlash_of_head_ne _ 's' _ h5 (by decide)

/-- C7: `request` forwards every caller-supplied header unchanged and sets
exactly the `Authorization` header to `Bearer` plus the stored access token:
the issued request's headers are the caller headers with `Authorization`
inserted, `Authorization` maps to `Bearer <token>`, and every other key looks
up exactly as in the caller-supplied map. -/
theorem request_header_injection (net : Net) (now : Int) (s : Sys)
    (method endpoint : String) (callerHeaders : Dict) (t : String)
    (hval : is_access_token_expired s.auth now = false)
    (htok : s.auth.access_token = some t) :
    (request net now s method endpoint callerHeaders).2.calls =
      s.calls ++ [main_request s.auth method endpoint callerHeaders] ∧
    (main_request s.auth method endpoint callerHeaders).headers =
      auth_headers s.auth callerHeaders ∧
    dictGet (auth_headers s.auth callerHeaders) "Authorization" =
      some ("Bearer " ++ t) ∧
    ∀ k, k ≠ "Authorization" →
      dictGet (auth_headers s.auth callerHeaders) k = dictGet callerHeaders k := by
  refine ⟨?_, rfl, ?_, ?_⟩
  · rw [request_of_valid net now s method endpoint callerHeaders hval]
  · simp [auth_headers, htok, dictGet_dictInsert_self, pyStr]
  · intro k hk
    rw [auth_headers]
    exact dictGet_dictInsert_ne _ _ _ _ hk

/-- Witness for C7: a concrete caller header `X-Test` survives unchanged and
the bearer header carries the stored token. -/
theorem request_header_injection_witness :
    (request netHappy 0 sysValid "GET" "ep" [("X-Test", "1")]).2.calls =
      [main_request sysValid.auth "GET" "ep" [("X-Test", "1")]] ∧
    dictGet (auth_headers sysValid.auth [("X-Test", "1")]) "Authorization" =
      some ("Bearer " ++ "tokA") ∧
    dictGet (auth_headers sysValid.auth [("X-Test", "1")]) "X-Test" = some "1" :=
  have h := request_header_injection netHappy 0 sysValid "GET" "ep"
    [("X-Test", "1")] "tokA" (by decide) rfl
  ⟨h.1, h.2.2.1, h.2.2.2 "X-Test" (by decide)⟩

/-- C8: `is_current_token_valid` never raises: with no stored access token it
returns `false` without issuing any network call; with a stored (truthy)
token it issues the probe and returns `true` exactly when the probe's status
is 200. -/
theorem is_current_token_valid_characterization (net : Net) (s : Sys) (t : String) :
    (s.auth.access_token = none → is_current_token_valid net s = (false, s)) ∧
    (s.auth.access_token = some t → t ≠ "" →
      is_current_token_valid net s =
        ((net.respond s.calls.length (validate_request s.auth)).status == 200,
         { s with calls := s.calls ++ [validate_request s.auth] })) := by
  constructor
  · intro h
    simp [is_current_token_valid, truthyStr, h]
  · intro h hne
    simp [is_current_token_valid, truthyStr, h, hne, netCall]

/-- Witness for C8: no token gives `false` with no call; a stored token and a
401 probe give `false` with exactly the probe call issued. -/
theorem is_current_token_valid_characterization_witness :
    is_current_token_valid netAll401 sysEmpty = (false, sysEmpty) ∧
    is_current_token_valid netAll401 sysValid =
      (false, { sysValid with calls := [validate_request sysValid.auth] }) :=
  ⟨(is_current_token_valid_characterization netAll401 sysEmpty "t").1 rfl,
   (is_current_token_valid_characterization netAll401 sysValid "tokA").2 rfl (by decide)⟩

/-- C9: `set_valve_state true` POSTs to the `.../valve/open` endpoint and
`set_valve_state false` POSTs to `.../valve/close`; `open_valve` and
`close_valve` are definitionally `set_valve_state` at `true` and `false`. -/
theorem valve_control_spec (net : Net) (now : Int) (s : Sys) (c : CubicAccessClient)
    (hval : is_access_token_expired s.auth now = false) :
    open_valve net now s c = set_valve_state net now s c true ∧
    close_valve net now s c = set_valve_state net now s c false ∧
    valve_state_endpoint c.serial_number true =
      "control/cubic/secure/" ++ c.serial_number ++ "/valve/open" ∧
    valve_state_endpoint c.serial_number false =
      "control/cubic/secure/" ++ c.serial_number ++ "/valve/close" ∧
    (set_valve_state net now s c true).2.calls =
      s.calls ++ [main_request s.auth "POST" (valve_state_endpoint c.serial_number true) []] ∧
    (set_valve_state net now s c false).2.calls =
      s.calls ++ [main_request s.auth "POST" (valve_state_endpoint c.serial_number false) []] ∧
    (main_request s.auth "POST" (valve_state_endpoint c.serial_number true) []).method = "POST" ∧
    (main_request s.auth "POST" (valve_state_endpoint c.serial_number true) []).url =
      s.auth.base_url ++ "/" ++ valve_state_endpoint c.serial_number true ∧
    (main_request s.auth "POST" (valve_state_endpoint c.serial_number false) []).url =
      s.auth.base_url ++ "/" ++ valve_state_endpoint c.serial_number false := by
  refine ⟨rfl, rfl, ?_, ?_, ?_, ?_, rfl, ?_, ?_⟩
  · show ("control/cubic/secure/" ++ c.serial_number ++ "/valve/") ++ "open" =
      "control/cubic/secure/" ++ c.serial_number ++ "/valve/open"
    exact append_append_lit _ _ _ _ rfl
  · show ("control/cubic/secure/" ++ c.serial_number ++ "/valve/") ++ "close" =
      "control/cubic/secure/" ++ c.serial_number ++ "/valve/close"
    exact append_append_lit _ _ _ _ rfl
  · rw [set_valve_state, request_of_valid net now s "POST"
      (valve_state_endpoint c.serial_number true) [] hval]
  · rw [set_valve_state, request_of_valid net now s "POST"
      (valve_state_endpoint c.serial_number false) [] hval]
  · show s.auth.base_url ++ "/" ++ pyLstripSlash (valve_state_endpoint c.serial_number true) = _
    rw [pyLstripSlash_valve_state_endpoint]
  · show s.auth.base_url ++ "/" ++ pyLstripSlash (valve_state_endpoint c.serial_number false) = _
    rw [pyLstripSlash_valve_state_endpoint]

/-- Witness for C9 on concrete inputs: the delegation and the issued POST. -/
theorem valve_control_spec_witness :
    open_valve netHappy 0 sysValid ⟨"SN1"⟩ = set_valve_state netHappy 0 sysValid ⟨"SN1"⟩ true ∧
    (set_valve_state netHappy 0 sysValid ⟨"SN1"⟩ true).2.calls =
      [main_request sysValid.auth "POST" (valve_state_endpoint "SN1" true) []] ∧
    valve_state_endpoint "SN1" true = "control/cubic/secure/" ++ "SN1" ++ "/valve/open" :=
  have h := valve_control_spec netHappy 0 sysValid ⟨"SN1"⟩ (by decide)
  ⟨h.1, h.2.2.2.2.1, h.2.2.1⟩

/-- C10: `get_measurement` and `get_configuration` GET
`service/cubic/secure/{serial}/{measurement|configuration}/{0|1}` where
`bypass` selects the `/1` versus `/0` suffix (two distinct URLs); every call
issues the GET afresh against the current trace (no caching), and the client
carries no state beyond the serial number. -/
theorem cubic_client_endpoints (net : Net) (now : Int) (s : Sys) (c : CubicClient)
    (bypass : Bool)
    (hval : is_access_token_expired s.auth now = false) :
    (get_measurement net now s c bypass).2.calls =
      s.calls ++ [main_request s.auth "GET" (measurement_endpoint c.serial_number bypass) []] ∧
    (get_configuration net now s c bypass).2.calls =
      s.calls ++ [main_request s.auth "GET" (configuration_endpoint c.serial_number bypass) []] ∧
    measurement_endpoint c.serial_number bypass =
      "service/cubic/secure/" ++ c.serial_number ++ "/measurement/"
        ++ (if bypass then "1" else "0") ∧
    configuration_endpoint c.serial_number bypass =
      "service/cubic/secure/" ++ c.serial_number ++ "/configuration/"
        ++ (if bypass then "1" else "0") ∧
    measurement_endpoint c.serial_number true ≠ measurement_endpoint c.serial_number false ∧
    configuration_endpoint c.serial_number true ≠ configuration_endpoint c.serial_number false ∧
    (main_request s.auth "GET" (measurement_endpoint c.serial_number bypass) []).url =
      s.auth.base_url ++ "/" ++ measurement_endpoint c.serial_number bypass ∧
    (main_request s.auth "GET" (configuration_endpoint c.serial_number bypass) []).url =
      s.auth.base_url ++ "/" ++ configuration_endpoint c.serial_number bypass ∧
    (main_request s.auth "GET" (measurement_endpoint c.serial_number bypass) []).method = "GET" := by
  refine ⟨?_, ?_, rfl, rfl, ?_, ?_, ?_, ?_, rfl⟩
  · rw [get_measurement, request_of_valid net now s "GET"
      (measurement_endpoint c.serial_number bypass) [] hval]
  · rw [get_configuration, request_of_valid net now s "GET"
      (configuration_endpoint c.serial_number bypass) [] hval]
  · exact append_right_ne _ _ _ (by decide)
  · exact append_right_ne _ _ _ (by decide)
  · show s.auth.base_url ++ "/" ++ pyLstripSlash (measurement_endpoint c.serial_number bypass) = _
    rw [pyLstripSlash_measurement_endpoint]
  · show s.auth.base_url ++ "/" ++ pyLstripSlash (configuration_endpoint c.serial_number bypass) = _
    rw [pyLstripSlash_configuration_endpoint]

/-- Witness for C10 on concrete inputs: the issued GET and the distinct
bypass URLs. -/
theorem cubic_client_endpoints_witness :
    (get_measurement netHappy 0 sysValid ⟨"SN1"⟩ true).2.calls =
      [main_request sysValid.auth "GET" (measurement_endpoint "SN1" true) []] ∧
    measurement_endpoint "SN1" true ≠ measurement_endpoint "SN1" false ∧
    configuration_endpoint "SN1" true ≠ configuration_endpoint "SN1" false :=
  have h := cubic_client_endpoints netHappy 0 sysValid ⟨"SN1"⟩ true (by decide)
  ⟨h.1, h.2.2.2.2.1, h.2.2.2.2.2.1⟩

theorem str_ne_of_head_ne (a b : String) (c c2 : Char) (cs cs2 : List Char)
    (ha : a.data = c :: cs) (hb : b.data = c2 :: cs2) (h : c ≠ c2) : a ≠ b := by
  intro he
  rw [he, hb] at ha
  injection ha with h1 h2
  exact h h1.symm

theorem user_data_endpoint_head (uid : Option String) (dt : String) (bypass : Bool) :
    ∃ cs, (user_data_endpoint uid dt bypass).data = 's' :: cs := by
  have h0 : ("service/users/user/" : String).data
      = 's' :: ("ervice/users/user/" : String).data := rfl
  have h1 := data_append_cons "service/users/user/" (pyStr uid) _ _ h0
  have h2 := data_append_cons _ "/" _ _ h1
  have h3 := data_append_cons _ dt _ _ h2
  have h4 := data_append_cons _ "/" _ _ h3
  have h5 := data_append_cons _ (if bypass then "1" else "0") _ _ h4
  exact ⟨_, h5⟩

theorem user_data_endpoint_ne_lookup_path (uid : Option String) (dt : String)
    (bypass : Bool) : user_data_endpoint uid dt bypass ≠ "auth/auth/user" := by
  obtain ⟨cs, hcs⟩ := user_data_endpoint_head uid dt bypass
  exact str_ne_of_head_ne _ _ 's' 'a' _ _ hcs rfl (by decide)

theorem data_request_not_lookup (st : AuthState) (uid : Option String)
    (dt : String) (bypass : Bool) :
    isUserLookupCall st.base_url
      (main_request st "GET" (user_data_endpoint uid dt bypass) []) = false := by
  simp only [isUserLookupCall, main_request]
  rw [pyLstripSlash_user_data_endpoint]
  have hne : st.base_url ++ "/" ++ user_data_endpoint uid dt bypass ≠
      st.base_url ++ "/auth/auth/user" := by
    have hx : ("/" : String) ++ "auth/auth/user" = "/auth/auth/user" := by decide
    have hsplit : st.base_url ++ "/auth/auth/user" =
        (st.base_url ++ "/") ++ "auth/auth/user" := by
      rw [String.append_assoc, hx]
    rw [hsplit]
    exact append_right_ne _ _ _ (user_data_endpoint_ne_lookup_path uid dt bypass)
  simp [hne]

theorem lookup_request_is_lookup (st : AuthState) :
    isUserLookupCall st.base_url (main_request st "GET" "/auth/auth/user" []) = true := by
  simp only [isUserLookupCall, main_request]
  have h : pyLstripSlash "/auth/auth/user" = "auth/auth/user" := by decide
  rw [h]
  have hx : ("/" : String) ++ "auth/auth/user" = "/auth/auth/user" := by decide
  have h2 : st.base_url ++ "/" ++ "auth/auth/user" = st.base_url ++ "/auth/auth/user" := by
    rw [String.append_assoc, hx]
  rw [h2]
  simp

theorem countUserLookupCalls_append (base : String) (l1 l2 : List HttpRequest) :
    countUserLookupCalls base (l1 ++ l2) =
      countUserLookupCalls base l1 + countUserLookupCalls base l2 := by
  simp [countUserLookupCalls, List.filter_append]

theorem get_user_id_of_ok (net : Net) (now : Int) (s : Sys) (uid : String)
    (hval : is_access_token_expired s.auth now = false)
    (h200 : (net.respond s.calls.length
      (main_request s.auth "GET" "/auth/auth/user" [])).status = 200)
    (huid : dictGet (net.respond s.calls.length
        (main_request s.auth "GET" "/auth/auth/user" [])).body "userId" = some uid) :
    get_user_id net now s =
      (Except.ok uid,
       { s with calls := s.calls ++ [main_request s.auth "GET" "/auth/auth/user" []] }) := by
  rw [get_user_id, request_of_valid net now s "GET" "/auth/auth/user" [] hval]
  simp [h200, huid]

/-- C1: when `request` finds the stored access token locally expired (and a
refresh token is available and the refresh succeeds), it issues exactly the
refresh call followed by the original request — one refresh, issued before
the main call, whose `Authorization` header carries the access token obtained
by the refresh; when the token is not expired, only the original request is
issued. -/
theorem request_refreshes_expired_token (net : Net) (now : Int) (s : Sys)
    (method endpoint : String) (callerHeaders : Dict)
    (rt : String) (hrt : s.auth.refresh_token = some rt) (hrtne : rt ≠ "")
    (newTok : String)
    (hstatus : (net.respond s.calls.length (refresh_request s.auth)).status = 200)
    (hnew : (net.respond s.calls.length (refresh_request s.auth)).tok.accessToken
      = some newTok) :
    (is_access_token_expired s.auth now = true →
      (request net now s method endpoint callerHeaders).2.calls =
        s.calls ++ [refresh_request s.auth,
          main_request
            (store_token_data s.auth (net.respond s.calls.length (refresh_request s.auth)).tok)
            method endpoint callerHeaders] ∧
      isRefreshCallTo s.auth.base_url (refresh_request s.auth) = true ∧
      dictGet (main_request
          (store_token_data s.auth (net.respond s.calls.length (refresh_request s.auth)).tok)
          method endpoint callerHeaders).headers "Authorization" =
        some ("Bearer " ++ newTok)) ∧
    (is_access_token_expired s.auth now = false →
      (request net now s method endpoint callerHeaders).2.calls =
        s.calls ++ [main_request s.auth method endpoint callerHeaders]) := by
  constructor
  · intro hexp
    have hens : ensure_valid_access_token net now false s =
        (Except.ok (),
         { auth := store_token_data s.auth
             (net.respond s.calls.length (refresh_request s.auth)).tok,
           calls := s.calls ++ [refresh_request s.auth] }) := by
      rw [ensure_of_expired net now s hexp]
      exact refresh_token_of_ok net s rt hrt hrtne hstatus
    refine ⟨?_, ?_, ?_⟩
    · rw [request, hens]
      simp [netCall]
      split <;> simp
    · simp [isRefreshCallTo, refresh_request]
    · simp [main_request, auth_headers, store_token_data, hnew,
        dictGet_dictInsert_self, pyStr]
  · intro hval
    rw [request_of_valid net now s method endpoint callerHeaders hval]

/-- Witness for C1: with an expired token and a successful refresh, the trace
is exactly the refresh call then the original call bearing the new token. -/
theorem request_refreshes_expired_token_witness :
    (request netHappy 100 sysExpired "GET" "ep" []).2.calls =
      [refresh_request sysExpired.auth,
       main_request (store_token_data sysExpired.auth
           (netHappy.respond 0 (refresh_request sysExpired.auth)).tok) "GET" "ep" []] ∧
    dictGet (main_request (store_token_data sysExpired.auth
          (netHappy.respond 0 (refresh_request sysExpired.auth)).tok)
        "GET" "ep" []).headers "Authorization" = some ("Bearer " ++ "newA") :=
  have h := (request_refreshes_expired_token netHappy 100 sysExpired "GET" "ep" []
    "tokR" rfl (by decide) "newA" rfl rfl).1 (by decide)
  ⟨h.1, h.2.2⟩

theorem get_user_data_cached (net : Net) (now : Int) (s : Sys) (uid : String)
    (dt : String) (bypass : Bool) (huid : uid ≠ "") :
    get_user_data net now s ⟨some uid⟩ dt bypass =
      (let rr := request net now s "GET" (user_data_endpoint (some uid) dt bypass) []
       (rr.1, rr.2, (⟨some uid⟩ : UserClient))) := by
  simp [get_user_data, truthyStr, huid]

theorem get_user_data_first (net : Net) (now : Int) (s : Sys) (uid : String)
    (dt : String) (bypass : Bool)
    (hval : is_access_token_expired s.auth now = false)
    (h200 : (net.respond s.calls.length
      (main_request s.auth "GET" "/auth/auth/user" [])).status = 200)
    (hbody : dictGet (net.respond s.calls.length
        (main_request s.auth "GET" "/auth/auth/user" [])).body "userId" = some uid) :
    get_user_data net now s ⟨none⟩ dt bypass =
      (let s1 : Sys :=
        { s with calls := s.calls ++ [main_request s.auth "GET" "/auth/auth/user" []] }
       let rr := request net now s1 "GET" (user_data_endpoint (some uid) dt bypass) []
       (rr.1, rr.2, (⟨some uid⟩ : UserClient))) := by
  have hlook := get_user_id_of_ok net now s uid hval h200 hbody
  simp only [get_user_data, truthyStr]
  rw [hlook]
  simp

/-- Counterexample to C6 as stated: when the server's user-id lookup returns
the empty string as the user id, the id is cached but is falsy, so a second
`get_structure` call on the same instance issues a second dedicated user-id
lookup instead of reusing the cached id: the total lookup count after two
calls is 2, not 1. -/
theorem user_id_memoization_cex :
    (get_structure netUserEmpty 0 sysValid ⟨none⟩ false).2.2 = ⟨some ""⟩ ∧
    countUserLookupCalls "https://x"
      (get_structure netUserEmpty 0 sysValid ⟨none⟩ false).2.1.calls = 1 ∧
    countUserLookupCalls "https://x"
      (get_structure netUserEmpty 0
        (get_structure netUserEmpty 0 sysValid ⟨none⟩ false).2.1
        (get_structure netUserEmpty 0 sysValid ⟨none⟩ false).2.2 false).2.1.calls = 2 := by
  decide

/-- C6 (amended): provided the user id obtained from the lookup is non-empty
(Python truthiness), the user id is resolved lazily and memoized: a call with
nothing cached issues exactly one dedicated user-id lookup (GET
`auth/auth/user`), caches the id, and then issues the data GET; a call with
the non-empty id cached issues no lookup at all, only the data GET to
`service/users/user/{userId}/{data_type}/{0|1}` with the bypass flag encoded
as `1`/`0`; `get_structure` and `get_information` are the `structure` and
`information` instances of this. -/
theorem user_id_memoization_amended (net : Net) (now : Int) (s : Sys)
    (uid data_type : String) (bypass : Bool)
    (huid : uid ≠ "")
    (hval : is_access_token_expired s.auth now = false)
    (h200 : (net.respond s.calls.length
      (main_request s.auth "GET" "/auth/auth/user" [])).status = 200)
    (hbody : dictGet (net.respond s.calls.length
        (main_request s.auth "GET" "/auth/auth/user" [])).body "userId" = some uid) :
    (get_user_data net now s ⟨some uid⟩ data_type bypass).2.1.calls =
      s.calls ++ [main_request s.auth "GET"
        (user_data_endpoint (some uid) data_type bypass) []] ∧
    (get_user_data net now s ⟨some uid⟩ data_type bypass).2.2 = ⟨some uid⟩ ∧
    countUserLookupCalls s.auth.base_url
        (get_user_data net now s ⟨some uid⟩ data_type bypass).2.1.calls =
      countUserLookupCalls s.auth.base_url s.calls ∧
    (get_user_data net now s ⟨none⟩ data_type bypass).2.2 = ⟨some uid⟩ ∧
    (get_user_data net now s ⟨none⟩ data_type bypass).2.1.calls =
      s.calls ++ [main_request s.auth "GET" "/auth/auth/user" [],
        main_request s.auth "GET" (user_data_endpoint (some uid) data_type bypass) []] ∧
    countUserLookupCalls s.auth.base_url
        (get_user_data net now s ⟨none⟩ data_type bypass).2.1.calls =
      countUserLookupCalls s.auth.base_url s.calls + 1 ∧
    isUserLookupCall s.auth.base_url (main_request s.auth "GET" "/auth/auth/user" []) = true ∧
    get_structure net now s ⟨some uid⟩ bypass =
      get_user_data net now s ⟨some uid⟩ "structure" bypass ∧
    get_information net now s ⟨some uid⟩ bypass =
      get_user_data net now s ⟨some uid⟩ "information" bypass := by
  have hcached := get_user_data_cached net now s uid data_type bypass huid
  have hfirst := get_user_data_first net now s uid data_type bypass hval h200 hbody
  have hreq2 := request_of_valid net now
    { s with calls := s.calls ++ [main_request s.auth "GET" "/auth/auth/user" []] }
    "GET" (user_data_endpoint (some uid) data_type bypass) [] hval
  have hcachedCalls : (get_user_data net now s ⟨some uid⟩ data_type bypass).2.1.calls =
      s.calls ++ [main_request s.auth "GET"
        (user_data_endpoint (some uid) data_type bypass) []] := by
    rw [hcached]
    simp only []
    rw [request_of_valid net now s "GET" (user_data_endpoint (some uid) data_type bypass) [] hval]
  have hfirstCalls : (get_user_data net now s ⟨none⟩ data_type bypass).2.1.calls =
      s.calls ++ [main_request s.auth "GET" "/auth/auth/user" [],
        main_request s.auth "GET" (user_data_endpoint (some uid) data_type bypass) []] := by
    rw [hfirst]
    simp only []
    rw [hreq2]
    simp [List.append_assoc]
  refine ⟨hcachedCalls, ?_, ?_, ?_, hfirstCalls, ?_, lookup_request_is_lookup s.auth, rfl, rfl⟩
  · rw [hcached]
  · rw [hcachedCalls, countUserLookupCalls_append]
    simp [countUserLookupCalls, List.filter, data_request_not_lookup s.auth]
  · rw [hfirst]
  · rw [hfirstCalls, countUserLookupCalls_append]
    simp [countUserLookupCalls, List.filter, data_request_not_lookup s.auth,
      lookup_request_is_lookup s.auth]

/-- Witness for the amended C6 at concrete inputs: the first call performs
exactly one lookup and caches the non-empty id. -/
theorem user_id_memoization_amended_witness :
    (get_user_data netHappy 0 sysValid ⟨none⟩ "structure" false).2.2 = ⟨some "u77"⟩ ∧
    (get_user_data netHappy 0 sysValid ⟨none⟩ "structure" false).2.1.calls =
      [main_request sysValid.auth "GET" "/auth/auth/user" [],
       main_request sysValid.auth "GET" (user_data_endpoint (some "u77") "structure" false) []] ∧
    countUserLookupCalls "https://x"
      (get_user_data netHappy 0 sysValid ⟨none⟩ "structure" false).2.1.calls = 1 :=
  have h := user_id_memoization_amended netHappy 0 sysValid "u77" "structure" false
    (by decide) (by decide) rfl rfl
  ⟨h.2.2.2.1, h.2.2.2.2.1, h.2.2.2.2.2.1⟩

end Pycubic
